import Mathlib

/-!
Verification of the audio tap capture core of the repository
(`src/AudioTapImpl`: SystemAudioTapper, TappingSessionHandle, IOProcHandle,
AudioDataHandler, AudioDeviceUtils).

The repository ships the headers of these components; the corresponding
implementation files are not part of the source tree.  Where a definition
embeds behaviour that only a missing implementation file could decide, its
doc comment starts with "Modelled from the spec:" and names what is missing.
Everything else (member layouts, default member initialisers, declared
signatures, access control, and the one inline member function body) is
translated directly from the headers.
-/

/-- CoreAudio sentinel for an unknown audio object (`kAudioObjectUnknown`). -/
def kAudioObjectUnknown : Nat := 0

/-- CoreAudio sentinel for an unknown audio device (`kAudioDeviceUnknown`). -/
def kAudioDeviceUnknown : Nat := 0

/-- The two fields of an `AudioStreamBasicDescription` that the claims use:
sample rate in Hz and interleaved channels per frame. -/
structure AudioFormat where
  mSampleRate : Nat
  mChannelsPerFrame : Nat
deriving DecidableEq

namespace utils

/-- Modelled from the spec: the implementation of
`utils::allocateBufferForFormat` (declared at `AudioDeviceUtils.h:27`) is not
under the source tree.  Per its header documentation it returns a
`std::vector<float>` "pre-sized to hold the audio data" for the given format
and duration, i.e. `mSampleRate * durationInSeconds` frames of
`mChannelsPerFrame` samples each, zero-initialised. -/
def allocateBufferForFormat (format : AudioFormat) (durationInSeconds : Nat) :
    List ℚ :=
  List.replicate
    (format.mSampleRate * durationInSeconds * format.mChannelsPerFrame) 0

end utils

/-- State of an `AudioDataHandler` (`AudioDataHandler.h`).  The pre-sized
`std::vector<float> audioBuffer_` is tracked through its size (`capacity`),
the atomic `std::atomic<size_t> bufferIndex_{0}` through `bufferIndex`;
`samplesCopied` counts the samples actually copied into `audioBuffer_` so
far, and `bufferFullFires` counts the invocations of the registered
`onBufferFull_` callback. -/
structure AudioDataHandler where
  capacity : Nat
  bufferIndex : Nat
  samplesCopied : Nat
  bufferFullFires : Nat
deriving DecidableEq

namespace AudioDataHandler

/-- The `AudioDataHandler(format, durationInSeconds)` constructor
(`AudioDataHandler.h:15`): it pre-allocates `audioBuffer_` via
`utils::allocateBufferForFormat`; `bufferIndex_{0}` per the header, and no
callback has fired yet. -/
def create (format : AudioFormat) (durationInSeconds : Nat) : AudioDataHandler :=
  { capacity := (utils.allocateBufferForFormat format durationInSeconds).length
    bufferIndex := 0
    samplesCopied := 0
    bufferFullFires := 0 }

/-- Modelled from the spec: the implementation of `AudioDataHandler::process`
(declared at `AudioDataHandler.h:18`) is not under the source tree.  Per
spec section 4.4 it reserves a span of the remaining capacity by a
fetch-and-advance on the write cursor, copies only as many incoming samples
as fit (partial or zero copy once full), and invokes the buffer-full
callback exactly when this call observed the cursor crossing the capacity
boundary.  `samples` is the number of incoming interleaved samples carried
by the `AudioBufferList` (frames times channels). -/
def process (h : AudioDataHandler) (samples : Nat) : AudioDataHandler :=
  if h.capacity ≤ h.bufferIndex then h
  else
    { h with
      bufferIndex := h.bufferIndex + min samples (h.capacity - h.bufferIndex)
      samplesCopied := h.samplesCopied + min samples (h.capacity - h.bufferIndex)
      bufferFullFires :=
        h.bufferFullFires +
          (if h.capacity ≤ h.bufferIndex + samples then 1 else 0) }

/-- Repeated `process` calls, one per entry of `ns`. -/
def processAll (h : AudioDataHandler) (ns : List Nat) : AudioDataHandler :=
  ns.foldl process h

/-- The state an initially empty handler of capacity `cap` is in once a
total of `t` samples have been offered to its `process` method. -/
def reached (cap t : Nat) : AudioDataHandler :=
  ⟨cap, min t cap, min t cap, if cap ≤ t ∧ 0 < cap then 1 else 0⟩

lemma create_capacity (format : AudioFormat) (durationInSeconds : Nat) :
    (create format durationInSeconds).capacity =
      format.mSampleRate * durationInSeconds * format.mChannelsPerFrame := by
  simp [create, utils.allocateBufferForFormat]

lemma create_eq (format : AudioFormat) (durationInSeconds : Nat) :
    create format durationInSeconds =
      ⟨format.mSampleRate * durationInSeconds * format.mChannelsPerFrame,
        0, 0, 0⟩ := by
  simp [create, utils.allocateBufferForFormat]

lemma reached_zero (cap : Nat) : reached cap 0 = ⟨cap, 0, 0, 0⟩ := by
  simp [reached]

lemma process_reached (cap t n : Nat) :
    process (reached cap t) n = reached cap (t + n) := by
  unfold process reached
  dsimp only
  split_ifs <;> simp_all [AudioDataHandler.mk.injEq] <;> omega

lemma processAll_reached (cap : Nat) (ns : List Nat) :
    ∀ t, processAll (reached cap t) ns = reached cap (t + ns.sum) := by
  induction ns with
  | nil => intro t; simp [processAll]
  | cons n rest ih =>
      intro t
      have hstep : processAll (reached cap t) (n :: rest) =
          processAll (process (reached cap t) n) rest := rfl
      rw [hstep, process_reached, ih, List.sum_cons, Nat.add_assoc]

lemma processAll_create (format : AudioFormat) (durationInSeconds : Nat)
    (ns : List Nat) :
    processAll (create format durationInSeconds) ns =
      reached (format.mSampleRate * durationInSeconds * format.mChannelsPerFrame)
        ns.sum := by
  rw [create_eq, ← reached_zero, processAll_reached]
  simp

end AudioDataHandler

/-- C2: when repeated `AudioDataHandler::process` calls carry more samples in
total than the pre-sized buffer holds, exactly `capacity` samples are copied
in total, the write cursor never exceeds the capacity at any point of the
sequence (excess samples are dropped), and the registered buffer-full
callback fires exactly once — namely on the call whose samples make the
cursor reach the capacity boundary (the prefix characterisation in the last
conjunct). -/
theorem process_fill_contract (format : AudioFormat) (durationInSeconds : Nat)
    (pre suff : List Nat)
    (hcap : 0 < (AudioDataHandler.create format durationInSeconds).capacity)
    (hsum : (AudioDataHandler.create format durationInSeconds).capacity
      < List.sum (pre ++ suff)) :
    (AudioDataHandler.processAll (AudioDataHandler.create format durationInSeconds)
        (pre ++ suff)).samplesCopied
      = (AudioDataHandler.create format durationInSeconds).capacity
  ∧ (AudioDataHandler.processAll (AudioDataHandler.create format durationInSeconds)
        (pre ++ suff)).bufferFullFires = 1
  ∧ (AudioDataHandler.processAll (AudioDataHandler.create format durationInSeconds)
        pre).bufferIndex
      ≤ (AudioDataHandler.create format durationInSeconds).capacity
  ∧ (AudioDataHandler.processAll (AudioDataHandler.create format durationInSeconds)
        pre).bufferFullFires
      = (if (AudioDataHandler.create format durationInSeconds).capacity
            ≤ List.sum pre then 1 else 0) := by
  simp only [AudioDataHandler.create_capacity] at hcap hsum
  rw [AudioDataHandler.processAll_create, AudioDataHandler.processAll_create]
  simp only [AudioDataHandler.create_capacity, AudioDataHandler.reached]
  refine ⟨by omega, by split_ifs <;> omega, by omega, by split_ifs <;> omega⟩

/-- Witness for `process_fill_contract`: capacity 2 (2 Hz mono, 1 s), calls
of 1 and 2 samples, split after the first call. -/
theorem process_fill_contract_witness :
    0 < (AudioDataHandler.create ⟨2, 1⟩ 1).capacity
  ∧ (AudioDataHandler.create ⟨2, 1⟩ 1).capacity < List.sum ([1] ++ [2])
  ∧ ((AudioDataHandler.processAll (AudioDataHandler.create ⟨2, 1⟩ 1)
        ([1] ++ [2])).samplesCopied
      = (AudioDataHandler.create ⟨2, 1⟩ 1).capacity
    ∧ (AudioDataHandler.processAll (AudioDataHandler.create ⟨2, 1⟩ 1)
        ([1] ++ [2])).bufferFullFires = 1
    ∧ (AudioDataHandler.processAll (AudioDataHandler.create ⟨2, 1⟩ 1)
        [1]).bufferIndex
      ≤ (AudioDataHandler.create ⟨2, 1⟩ 1).capacity
    ∧ (AudioDataHandler.processAll (AudioDataHandler.create ⟨2, 1⟩ 1)
        [1]).bufferFullFires
      = (if (AudioDataHandler.create ⟨2, 1⟩ 1).capacity ≤ List.sum [1]
          then 1 else 0)) :=
  ⟨by decide, by decide,
    process_fill_contract ⟨2, 1⟩ 1 [1] [2] (by decide) (by decide)⟩

/-- C5 counterexample: for 48 kHz stereo and 5 seconds the pre-allocated
buffer holds `48000 * 5 * 2 = 480000` samples — not the `480000 * 2`
samples that "480,000 frames × 2 channels" would require — and after the
first two calls of 200,000 frames (400,000 samples) each, the buffer is
already full and the single buffer-full notification has already fired, so
the third call of 160,000 frames does not fill the buffer and copies
nothing. -/
theorem capacity_scenario_counterexample :
    ((AudioDataHandler.create ⟨48000, 2⟩ 5).capacity == 480000 * 2) = false
  ∧ (AudioDataHandler.processAll (AudioDataHandler.create ⟨48000, 2⟩ 5)
        [200000 * 2, 200000 * 2]).bufferIndex
      = (AudioDataHandler.create ⟨48000, 2⟩ 5).capacity
  ∧ (AudioDataHandler.processAll (AudioDataHandler.create ⟨48000, 2⟩ 5)
        [200000 * 2, 200000 * 2]).bufferFullFires = 1
  ∧ (AudioDataHandler.processAll (AudioDataHandler.create ⟨48000, 2⟩ 5)
        [200000 * 2, 200000 * 2, 160000 * 2]).samplesCopied
      = (AudioDataHandler.processAll (AudioDataHandler.create ⟨48000, 2⟩ 5)
          [200000 * 2, 200000 * 2]).samplesCopied := by
  rw [AudioDataHandler.create_eq]
  refine ⟨by decide, by decide, by decide, by decide⟩

/-- C5 as amended: the capacity for 48 kHz stereo and 5 seconds is 480,000
samples, i.e. 240,000 frames × 2 channels; the three calls of
200,000/200,000/160,000 frames fill the buffer on the second call (which is
copied only partially) and trigger exactly one buffer-full notification,
and the third call is a no-op on the handler. -/
theorem capacity_scenario_amended :
    (AudioDataHandler.create ⟨48000, 2⟩ 5).capacity = 240000 * 2
  ∧ (AudioDataHandler.processAll (AudioDataHandler.create ⟨48000, 2⟩ 5)
        [200000 * 2]).bufferIndex = 400000
  ∧ (AudioDataHandler.processAll (AudioDataHandler.create ⟨48000, 2⟩ 5)
        [200000 * 2]).bufferFullFires = 0
  ∧ (AudioDataHandler.processAll (AudioDataHandler.create ⟨48000, 2⟩ 5)
        [200000 * 2, 200000 * 2]).bufferIndex = 480000
  ∧ (AudioDataHandler.processAll (AudioDataHandler.create ⟨48000, 2⟩ 5)
        [200000 * 2, 200000 * 2]).samplesCopied = 480000
  ∧ (AudioDataHandler.processAll (AudioDataHandler.create ⟨48000, 2⟩ 5)
        [200000 * 2, 200000 * 2]).bufferFullFires = 1
  ∧ (AudioDataHandler.processAll (AudioDataHandler.create ⟨48000, 2⟩ 5)
        [200000 * 2, 200000 * 2, 160000 * 2])
      = (AudioDataHandler.processAll (AudioDataHandler.create ⟨48000, 2⟩ 5)
          [200000 * 2, 200000 * 2]) := by
  rw [AudioDataHandler.create_eq]
  refine ⟨by decide, by decide, by decide, by decide, by decide, by decide,
    by decide⟩

/-- A hardware operation issued against the CoreAudio graph, in issue order. -/
inductive HwOp
  | createTap
  | createAggregate
  | destroyAggregate
  | destroyTap
deriving DecidableEq

/-- Shadow state of the CoreAudio graph: which of the two hardware objects
are currently alive, and the log of the operations issued so far. -/
structure HwState where
  tapAlive : Bool
  aggAlive : Bool
  opLog : List HwOp
deriving DecidableEq

/-- How the OS answers the hardware calls of the tapper: the resolved
default output device (none when discovery fails) and whether each
creation/destruction call succeeds. -/
structure HwEnv where
  defaultOutputDevice : Option Nat
  tapCreationOk : Bool
  aggCreationOk : Bool
  aggDestroyOk : Bool
  tapDestroyOk : Bool
deriving DecidableEq

/-- An environment in which every hardware call succeeds. -/
def goodEnv : HwEnv := ⟨some 37, true, true, true, true⟩

/-- Member state of the `SystemAudioTapper` singleton
(`SystemAudioTapper.h:42-45`): `int activeSessions_{0}`,
`AudioDeviceID aggregateDeviceID_{kAudioDeviceUnknown}`,
`AudioObjectID tapSessionID_{kAudioObjectUnknown}`. -/
structure SystemAudioTapper where
  activeSessions : Int
  aggregateDeviceID : Nat
  tapSessionID : Nat
deriving DecidableEq

/-- The singleton right after construction: all members keep their header
default initialisers. -/
def SystemAudioTapper.init : SystemAudioTapper :=
  ⟨0, kAudioDeviceUnknown, kAudioObjectUnknown⟩

/-- Member state of a `TappingSessionHandle` (`TappingSessionHandle.h:56-59`),
restricted to the members the claims concern: `tapSessionID_`,
`aggregateDeviceID_`, and whether the back-reference `manager_` is
non-null. -/
structure TappingSessionHandle where
  tapSessionID : Nat
  aggregateDeviceID : Nat
  hasManager : Bool
deriving DecidableEq

/-- A handle whose members carry the header default initialisers
(`kAudioObjectUnknown`, `kAudioDeviceUnknown`, null `manager_`): this is
what the public defaulted `TappingSessionHandle()` constructor produces,
and what a moved-from or released handle is left as. -/
def TappingSessionHandle.invalid : TappingSessionHandle :=
  ⟨kAudioObjectUnknown, kAudioDeviceUnknown, false⟩

/-- Modelled from the spec: the implementation of
`TappingSessionHandle::isValid` is not under the source tree; per spec
sections 3 and 4.2 a moved-from or already-released handle (null
`manager_`) is invalid and a handle returned by a successful acquisition is
valid. -/
def TappingSessionHandle.isValid (h : TappingSessionHandle) : Bool :=
  h.hasManager

/-- The tap object identifier the model hands out on a successful creation. -/
def modelTapSessionID : Nat := 101

/-- The aggregate device identifier the model hands out on a successful
creation. -/
def modelAggregateDeviceID : Nat := 202

/-- Modelled from the spec: the implementation of
`SystemAudioTapper::acquireSession` (declared at `SystemAudioTapper.h:23`)
is not under the source tree.  Per spec section 4.1: under the session
mutex, a first acquisition resolves the default output device, creates the
tap, then creates an aggregate device wrapping it; if any step fails, prior
steps are rolled back and an invalid handle is returned without
incrementing the count; on success the count is incremented and a valid
handle is returned.  An acquisition while sessions are already active only
increments the count and hands out the existing identifiers. -/
def SystemAudioTapper.acquireSession (env : HwEnv) (s : SystemAudioTapper)
    (hw : HwState) : SystemAudioTapper × HwState × TappingSessionHandle :=
  if 0 < s.activeSessions then
    ({ s with activeSessions := s.activeSessions + 1 }, hw,
      ⟨s.tapSessionID, s.aggregateDeviceID, true⟩)
  else
    match env.defaultOutputDevice with
    | none => (s, hw, TappingSessionHandle.invalid)
    | some _ =>
      if env.tapCreationOk then
        if env.aggCreationOk then
          (⟨s.activeSessions + 1, modelAggregateDeviceID, modelTapSessionID⟩,
            ⟨true, true, hw.opLog ++ [HwOp.createTap, HwOp.createAggregate]⟩,
            ⟨modelTapSessionID, modelAggregateDeviceID, true⟩)
        else
          (s, ⟨false, hw.aggAlive, hw.opLog ++ [HwOp.createTap, HwOp.destroyTap]⟩,
            TappingSessionHandle.invalid)
      else (s, hw, TappingSessionHandle.invalid)

/-- Modelled from the spec: the implementation of
`SystemAudioTapper::releaseSession` (declared at `SystemAudioTapper.h:27`)
is not under the source tree.  Per spec sections 4.1 and 7: decrement the
count; when it reaches zero, tear down the aggregate device and then the
tap, in that order; a failing teardown call is tolerated (logged, never
propagated — the function returns normally in every environment and never
reports an error) and the singleton state is reset either way. -/
def SystemAudioTapper.releaseSession (env : HwEnv) (s : SystemAudioTapper)
    (hw : HwState) : SystemAudioTapper × HwState :=
  if s.activeSessions - 1 = 0 then
    (SystemAudioTapper.init,
      ⟨if env.tapDestroyOk then false else hw.tapAlive,
        if env.aggDestroyOk then false else hw.aggAlive,
        hw.opLog ++ [HwOp.destroyAggregate, HwOp.destroyTap]⟩)
  else ({ s with activeSessions := s.activeSessions - 1 }, hw)

/-- Modelled from the spec: the implementation of
`TappingSessionHandle::release` (declared at `TappingSessionHandle.h:46`)
is not under the source tree.  Per spec section 4.2 it is idempotent: the
first call forwards to `releaseSession` on the owning tapper and marks the
handle invalid; on an invalid (released or moved-from) handle it is a
no-op.  The destructor performs exactly a `release`. -/
def TappingSessionHandle.release (env : HwEnv) (h : TappingSessionHandle)
    (s : SystemAudioTapper) (hw : HwState) :
    TappingSessionHandle × SystemAudioTapper × HwState :=
  if h.hasManager then
    (TappingSessionHandle.invalid, SystemAudioTapper.releaseSession env s hw)
  else (h, s, hw)

/-- Modelled from the spec: move construction
(`TappingSessionHandle.h:24`) transfers the session members to the new
handle and leaves the source with the default (invalid) member values. -/
def TappingSessionHandle.moveFrom (h : TappingSessionHandle) :
    TappingSessionHandle × TappingSessionHandle :=
  (⟨h.tapSessionID, h.aggregateDeviceID, h.hasManager⟩,
    TappingSessionHandle.invalid)

/-- Modelled from the spec: move assignment (`TappingSessionHandle.h:25`)
releases the claim the target currently holds, then transfers the source
members and invalidates the source.  Result: target after, source after,
tapper after, hardware after. -/
def TappingSessionHandle.moveAssign (env : HwEnv)
    (dst src : TappingSessionHandle) (s : SystemAudioTapper) (hw : HwState) :
    TappingSessionHandle × TappingSessionHandle × SystemAudioTapper × HwState :=
  (⟨src.tapSessionID, src.aggregateDeviceID, src.hasManager⟩,
    TappingSessionHandle.invalid,
    (dst.release env s hw).2.1, (dst.release env s hw).2.2)

/-- A control-thread event: an `acquireSession` call, or the `release` or
destruction of one of the currently outstanding valid handles (releasing or
destroying an invalid handle is a no-op, so only live valid handles are
tracked). -/
inductive Ev
  | acq
  | rel
deriving DecidableEq

/-- Combined state of the tapper singleton, the hardware shadow state, and
the number of outstanding valid session handles. -/
structure Sys where
  tapper : SystemAudioTapper
  hw : HwState
  live : Nat
deriving DecidableEq

/-- The process right after start: fresh singleton, no hardware objects, no
handles. -/
def Sys.init : Sys := ⟨SystemAudioTapper.init, ⟨false, false, []⟩, 0⟩

/-- One control-thread event.  An acquisition that returns a valid handle
adds one outstanding handle; the release/destruction of an outstanding
valid handle forwards to `releaseSession` (per
`TappingSessionHandle.release`); with no outstanding valid handle a
release/destruction event only concerns invalid handles and is a no-op. -/
def stepEv (env : HwEnv) (s : Sys) (e : Ev) : Sys :=
  match e with
  | Ev.acq =>
    ⟨(SystemAudioTapper.acquireSession env s.tapper s.hw).1,
      (SystemAudioTapper.acquireSession env s.tapper s.hw).2.1,
      if (SystemAudioTapper.acquireSession env s.tapper s.hw).2.2.isValid
        then s.live + 1 else s.live⟩
  | Ev.rel =>
    if 0 < s.live then
      ⟨(SystemAudioTapper.releaseSession env s.tapper s.hw).1,
        (SystemAudioTapper.releaseSession env s.tapper s.hw).2,
        s.live - 1⟩
    else s

/-- A whole control-thread event sequence. -/
def runEvents (env : HwEnv) (s : Sys) (evs : List Ev) : Sys :=
  evs.foldl (stepEv env) s

lemma stepEv_sessions_eq_live (env : HwEnv) (s : Sys) (e : Ev)
    (h : s.tapper.activeSessions = (s.live : Int)) :
    (stepEv env s e).tapper.activeSessions = ((stepEv env s e).live : Int) := by
  rcases s with ⟨⟨a, agg, tap⟩, hw, live⟩
  dsimp only at h
  subst h
  rcases env with ⟨d, tc, ac, ad, td⟩
  cases e with
  | acq =>
      by_cases hp : 0 < (live : Int)
      · simp [stepEv, SystemAudioTapper.acquireSession, hp,
          TappingSessionHandle.isValid]
      · have hl : live = 0 := by omega
        subst hl
        cases d <;> cases tc <;> cases ac <;>
          simp [stepEv, SystemAudioTapper.acquireSession,
            TappingSessionHandle.isValid, TappingSessionHandle.invalid]
  | rel =>
      by_cases hl : 0 < live
      · by_cases hz : (live : Int) - 1 = 0
        · simp [stepEv, SystemAudioTapper.releaseSession, hl, hz,
            SystemAudioTapper.init]
        · simp [stepEv, SystemAudioTapper.releaseSession, hl, hz]
      · simp [stepEv, hl]

lemma runEvents_sessions_eq_live (env : HwEnv) (evs : List Ev) :
    ∀ s : Sys, s.tapper.activeSessions = (s.live : Int) →
      (runEvents env s evs).tapper.activeSessions
        = ((runEvents env s evs).live : Int) := by
  induction evs with
  | nil => intro s h; exact h
  | cons e rest ih =>
      intro s h
      exact ih (stepEv env s e) (stepEv_sessions_eq_live env s e h)

/-- The hardware-creation log. -/
def createdLog : List HwOp := [HwOp.createTap, HwOp.createAggregate]

/-- The log after one full lifecycle: one creation of each object followed
by one destruction of each, aggregate device first. -/
def fullCycleLog : List HwOp :=
  [HwOp.createTap, HwOp.createAggregate, HwOp.destroyAggregate, HwOp.destroyTap]

/-- The system state while `k ≥ 1` sessions are outstanding in `goodEnv`:
both hardware objects alive, created exactly once. -/
def stateN (k : Nat) : Sys :=
  ⟨⟨(k : Int), modelAggregateDeviceID, modelTapSessionID⟩,
    ⟨true, true, createdLog⟩, k⟩

/-- The system state after the last outstanding session was released in
`goodEnv`. -/
def endSys : Sys := ⟨SystemAudioTapper.init, ⟨false, false, fullCycleLog⟩, 0⟩

lemma stepEv_acq_stateN (k : Nat) (hk : 1 ≤ k) :
    stepEv goodEnv (stateN k) Ev.acq = stateN (k + 1) := by
  have hp : (0 : Int) < (k : Int) := by exact_mod_cast hk
  simp [stepEv, SystemAudioTapper.acquireSession, stateN, hp,
    TappingSessionHandle.isValid]

lemma runEvents_acq_stateN (n : Nat) :
    ∀ k, 1 ≤ k → runEvents goodEnv (stateN k) (List.replicate n Ev.acq)
      = stateN (k + n) := by
  induction n with
  | zero => intro k _; simp [runEvents]
  | succ m ih =>
      intro k hk
      rw [List.replicate_succ]
      have hstep : runEvents goodEnv (stateN k) (Ev.acq :: List.replicate m Ev.acq)
          = runEvents goodEnv (stepEv goodEnv (stateN k) Ev.acq)
              (List.replicate m Ev.acq) := rfl
      rw [hstep, stepEv_acq_stateN k hk, ih (k + 1) (by omega)]
      congr 1
      omega

lemma stepEv_rel_stateN (k : Nat) (hk : 2 ≤ k) :
    stepEv goodEnv (stateN k) Ev.rel = stateN (k - 1) := by
  have hl : 0 < k := by omega
  have hz : ¬ ((k : Int) - 1 = 0) := by omega
  simp [stepEv, SystemAudioTapper.releaseSession, stateN, hl, hz]

lemma runEvents_rel_stateN (n : Nat) :
    ∀ k, n < k → runEvents goodEnv (stateN k) (List.replicate n Ev.rel)
      = stateN (k - n) := by
  induction n with
  | zero => intro k _; simp [runEvents]
  | succ m ih =>
      intro k hk
      rw [List.replicate_succ]
      have hstep : runEvents goodEnv (stateN k) (Ev.rel :: List.replicate m Ev.rel)
          = runEvents goodEnv (stepEv goodEnv (stateN k) Ev.rel)
              (List.replicate m Ev.rel) := rfl
      rw [hstep, stepEv_rel_stateN k (by omega), ih (k - 1) (by omega)]
      congr 1
      omega

lemma stepEv_acq_init : stepEv goodEnv Sys.init Ev.acq = stateN 1 := by decide

lemma stepEv_rel_last : stepEv goodEnv (stateN 1) Ev.rel = endSys := by decide

lemma runEvents_full_cycle (n : Nat) :
    runEvents goodEnv Sys.init
      (List.replicate (n + 1) Ev.acq ++ List.replicate (n + 1) Ev.rel)
      = endSys := by
  have hsplit : runEvents goodEnv Sys.init
      (List.replicate (n + 1) Ev.acq ++ List.replicate (n + 1) Ev.rel)
      = runEvents goodEnv
          (runEvents goodEnv Sys.init (List.replicate (n + 1) Ev.acq))
          (List.replicate (n + 1) Ev.rel) := by
    simp [runEvents, List.foldl_append]
  rw [hsplit]
  have hacq : runEvents goodEnv Sys.init (List.replicate (n + 1) Ev.acq)
      = stateN (1 + n) := by
    rw [List.replicate_succ]
    have hstep : runEvents goodEnv Sys.init (Ev.acq :: List.replicate n Ev.acq)
        = runEvents goodEnv (stepEv goodEnv Sys.init Ev.acq)
            (List.replicate n Ev.acq) := rfl
    rw [hstep, stepEv_acq_init, runEvents_acq_stateN n 1 (by omega)]
  rw [hacq]
  have hrel : runEvents goodEnv (stateN (1 + n)) (List.replicate (n + 1) Ev.rel)
      = endSys := by
    rw [List.replicate_succ']
    have hstep : runEvents goodEnv (stateN (1 + n))
        (List.replicate n Ev.rel ++ [Ev.rel])
        = runEvents goodEnv
            (runEvents goodEnv (stateN (1 + n)) (List.replicate n Ev.rel))
            [Ev.rel] := by
      simp [runEvents, List.foldl_append]
    rw [hstep, runEvents_rel_stateN n (1 + n) (by omega)]
    have h1 : 1 + n - n = 1 := by omega
    rw [h1]
    have hlast : runEvents goodEnv (stateN 1) [Ev.rel]
        = stepEv goodEnv (stateN 1) Ev.rel := rfl
    rw [hlast, stepEv_rel_last]
  exact hrel

/-- C1: for any number `n + 1` of `acquireSession` calls followed by as many
release/handle-destruction events in an environment where the hardware
cooperates, the tap and the aggregate device are each created exactly once
and destroyed exactly once (the whole hardware log is one full cycle);
moreover, in every environment and after every event sequence, the session
count never goes below zero, an acquisition while a session is outstanding
leaves the hardware state untouched, and a release that does not drop the
count to zero leaves the hardware state untouched. -/
theorem tap_created_once_destroyed_once (n : Nat) :
    runEvents goodEnv Sys.init
      (List.replicate (n + 1) Ev.acq ++ List.replicate (n + 1) Ev.rel)
      = endSys
  ∧ (runEvents goodEnv Sys.init
      (List.replicate (n + 1) Ev.acq ++ List.replicate (n + 1) Ev.rel)).hw.opLog
      = fullCycleLog
  ∧ (∀ env : HwEnv, ∀ evs : List Ev,
      0 ≤ (runEvents env Sys.init evs).tapper.activeSessions)
  ∧ (∀ env : HwEnv, ∀ evs : List Ev,
      1 ≤ (runEvents env Sys.init evs).live →
        (stepEv env (runEvents env Sys.init evs) Ev.acq).hw
          = (runEvents env Sys.init evs).hw)
  ∧ (∀ env : HwEnv, ∀ evs : List Ev,
      2 ≤ (runEvents env Sys.init evs).live →
        (stepEv env (runEvents env Sys.init evs) Ev.rel).hw
          = (runEvents env Sys.init evs).hw) := by
  have hinv : ∀ env : HwEnv, ∀ evs : List Ev,
      (runEvents env Sys.init evs).tapper.activeSessions
        = ((runEvents env Sys.init evs).live : Int) := by
    intro env evs
    exact runEvents_sessions_eq_live env evs Sys.init rfl
  refine ⟨runEvents_full_cycle n, ?_, ?_, ?_, ?_⟩
  · rw [runEvents_full_cycle n]
    rfl
  · intro env evs
    rw [hinv env evs]
    omega
  · intro env evs hle
    have hp : 0 < (runEvents env Sys.init evs).tapper.activeSessions := by
      rw [hinv env evs]; omega
    simp [stepEv, SystemAudioTapper.acquireSession, hp]
  · intro env evs hle
    have hl : 0 < (runEvents env Sys.init evs).live := by omega
    have hz : ¬ ((runEvents env Sys.init evs).tapper.activeSessions - 1 = 0) := by
      rw [hinv env evs]; omega
    simp [stepEv, SystemAudioTapper.releaseSession, hl, hz]

/-- Witness for `tap_created_once_destroyed_once`: two acquisitions followed
by two releases, with the inner universal statements evaluated at concrete
event sequences. -/
theorem tap_created_once_destroyed_once_witness :
    runEvents goodEnv Sys.init
      (List.replicate 2 Ev.acq ++ List.replicate 2 Ev.rel) = endSys
  ∧ 0 ≤ (runEvents goodEnv Sys.init [Ev.acq]).tapper.activeSessions
  ∧ 1 ≤ (runEvents goodEnv Sys.init [Ev.acq]).live
  ∧ (stepEv goodEnv (runEvents goodEnv Sys.init [Ev.acq]) Ev.acq).hw
      = (runEvents goodEnv Sys.init [Ev.acq]).hw
  ∧ 2 ≤ (runEvents goodEnv Sys.init [Ev.acq, Ev.acq]).live
  ∧ (stepEv goodEnv (runEvents goodEnv Sys.init [Ev.acq, Ev.acq]) Ev.rel).hw
      = (runEvents goodEnv Sys.init [Ev.acq, Ev.acq]).hw :=
  ⟨(tap_created_once_destroyed_once 1).1,
    (tap_created_once_destroyed_once 1).2.2.1 goodEnv [Ev.acq],
    by decide,
    (tap_created_once_destroyed_once 1).2.2.2.1 goodEnv [Ev.acq] (by decide),
    by decide,
    (tap_created_once_destroyed_once 1).2.2.2.2 goodEnv [Ev.acq, Ev.acq]
      (by decide)⟩

/-- C3: starting from an idle tapper (count zero, no hardware objects),
`acquireSession` returns a valid handle exactly when default-output-device
discovery, tap creation and aggregate-device creation all succeed; whenever
it returns an invalid handle the count is not incremented and no hardware
object is left alive (prior steps rolled back); on success the count becomes
one; and in the specific case where only aggregate-device creation fails,
the log shows the tap being created and then rolled back. -/
theorem acquireSession_failure_contract (env : HwEnv) (s : SystemAudioTapper)
    (hw : HwState) (hzero : s.activeSessions = 0)
    (htap : hw.tapAlive = false) (hagg : hw.aggAlive = false) :
    ((SystemAudioTapper.acquireSession env s hw).2.2.isValid = true ↔
      (env.defaultOutputDevice.isSome = true ∧ env.tapCreationOk = true
        ∧ env.aggCreationOk = true))
  ∧ ((SystemAudioTapper.acquireSession env s hw).2.2.isValid = false →
      (SystemAudioTapper.acquireSession env s hw).1 = s
      ∧ (SystemAudioTapper.acquireSession env s hw).2.1.tapAlive = false
      ∧ (SystemAudioTapper.acquireSession env s hw).2.1.aggAlive = false)
  ∧ ((SystemAudioTapper.acquireSession env s hw).2.2.isValid = true →
      (SystemAudioTapper.acquireSession env s hw).1.activeSessions = 1)
  ∧ (env.defaultOutputDevice.isSome = true → env.tapCreationOk = true →
      env.aggCreationOk = false →
      (SystemAudioTapper.acquireSession env s hw).2.1.opLog
        = hw.opLog ++ [HwOp.createTap, HwOp.destroyTap]) := by
  have hp : ¬ 0 < s.activeSessions := by omega
  rcases env with ⟨d, tc, ac, ad, td⟩
  cases d <;> cases tc <;> cases ac <;>
    simp [SystemAudioTapper.acquireSession, hp, hzero, htap, hagg,
      TappingSessionHandle.isValid, TappingSessionHandle.invalid]

/-- Witness for `acquireSession_failure_contract`: an idle tapper in an
environment where aggregate-device creation fails. -/
theorem acquireSession_failure_contract_witness :
    (SystemAudioTapper.init.activeSessions = 0
      ∧ (false, false, ([] : List HwOp)).1 = false)
  ∧ (((SystemAudioTapper.acquireSession ⟨some 1, true, false, true, true⟩
        SystemAudioTapper.init ⟨false, false, []⟩).2.2.isValid = true ↔
      ((some 1 : Option Nat).isSome = true ∧ true = true ∧ false = true))
    ∧ ((SystemAudioTapper.acquireSession ⟨some 1, true, false, true, true⟩
          SystemAudioTapper.init ⟨false, false, []⟩).2.2.isValid = false →
        (SystemAudioTapper.acquireSession ⟨some 1, true, false, true, true⟩
          SystemAudioTapper.init ⟨false, false, []⟩).1 = SystemAudioTapper.init
        ∧ (SystemAudioTapper.acquireSession ⟨some 1, true, false, true, true⟩
            SystemAudioTapper.init ⟨false, false, []⟩).2.1.tapAlive = false
        ∧ (SystemAudioTapper.acquireSession ⟨some 1, true, false, true, true⟩
            SystemAudioTapper.init ⟨false, false, []⟩).2.1.aggAlive = false)
    ∧ ((SystemAudioTapper.acquireSession ⟨some 1, true, false, true, true⟩
          SystemAudioTapper.init ⟨false, false, []⟩).2.2.isValid = true →
        (SystemAudioTapper.acquireSession ⟨some 1, true, false, true, true⟩
          SystemAudioTapper.init ⟨false, false, []⟩).1.activeSessions = 1)
    ∧ ((some 1 : Option Nat).isSome = true → true = true → false = false →
        (SystemAudioTapper.acquireSession ⟨some 1, true, false, true, true⟩
          SystemAudioTapper.init ⟨false, false, []⟩).2.1.opLog
          = [] ++ [HwOp.createTap, HwOp.destroyTap])) :=
  ⟨⟨rfl, rfl⟩,
    acquireSession_failure_contract ⟨some 1, true, false, true, true⟩
      SystemAudioTapper.init ⟨false, false, []⟩ rfl rfl rfl⟩

/-- C9: releasing the last outstanding session (count one) issues the two
teardown calls in creation-reversed order — the aggregate device first, the
tap second — and this holds in every environment, including those where
either teardown call fails: the failure is never propagated (the function
is total and returns normally), the singleton members are reset to their
initial values, and a subsequent `acquireSession` in a cooperating
environment hands out a valid handle again. -/
theorem releaseSession_teardown_order (env : HwEnv) (s : SystemAudioTapper)
    (hw : HwState) (hone : s.activeSessions = 1) :
    (SystemAudioTapper.releaseSession env s hw).2.opLog
      = hw.opLog ++ [HwOp.destroyAggregate, HwOp.destroyTap]
  ∧ (SystemAudioTapper.releaseSession env s hw).1 = SystemAudioTapper.init
  ∧ (SystemAudioTapper.releaseSession env s hw).1.activeSessions = 0
  ∧ (SystemAudioTapper.acquireSession goodEnv
      (SystemAudioTapper.releaseSession env s hw).1
      (SystemAudioTapper.releaseSession env s hw).2).2.2.isValid = true := by
  have hz : s.activeSessions - 1 = 0 := by omega
  refine ⟨by simp [SystemAudioTapper.releaseSession, hz], ?_, ?_, ?_⟩
  · simp [SystemAudioTapper.releaseSession, hz]
  · simp [SystemAudioTapper.releaseSession, hz, SystemAudioTapper.init]
  · simp [SystemAudioTapper.releaseSession, hz, SystemAudioTapper.init,
      SystemAudioTapper.acquireSession, goodEnv, TappingSessionHandle.isValid]

/-- Witness for `releaseSession_teardown_order`: one outstanding session and
an environment in which both teardown calls fail. -/
theorem releaseSession_teardown_order_witness :
    ((⟨1, 202, 101⟩ : SystemAudioTapper).activeSessions = 1)
  ∧ ((SystemAudioTapper.releaseSession ⟨some 3, true, true, false, false⟩
        ⟨1, 202, 101⟩ ⟨true, true, createdLog⟩).2.opLog
      = createdLog ++ [HwOp.destroyAggregate, HwOp.destroyTap]
    ∧ (SystemAudioTapper.releaseSession ⟨some 3, true, true, false, false⟩
        ⟨1, 202, 101⟩ ⟨true, true, createdLog⟩).1 = SystemAudioTapper.init
    ∧ (SystemAudioTapper.releaseSession ⟨some 3, true, true, false, false⟩
        ⟨1, 202, 101⟩ ⟨true, true, createdLog⟩).1.activeSessions = 0
    ∧ (SystemAudioTapper.acquireSession goodEnv
        (SystemAudioTapper.releaseSession ⟨some 3, true, true, false, false⟩
          ⟨1, 202, 101⟩ ⟨true, true, createdLog⟩).1
        (SystemAudioTapper.releaseSession ⟨some 3, true, true, false, false⟩
          ⟨1, 202, 101⟩ ⟨true, true, createdLog⟩).2).2.2.isValid = true) :=
  ⟨rfl, releaseSession_teardown_order ⟨some 3, true, true, false, false⟩
    ⟨1, 202, 101⟩ ⟨true, true, createdLog⟩ rfl⟩

/-- C6: for a valid handle, the first `release` (equivalently, destruction)
forwards exactly once to the owning tapper releaseSession and leaves the
handle invalid; a further release of the now-invalid handle changes
nothing; move construction hands the members to the new handle and leaves
the source invalid, so releasing or destroying the moved-from source
changes nothing; and move assignment into an invalid target transfers the
claim and invalidates the source. -/
theorem handle_release_idempotent_move_safe (env : HwEnv)
    (h dst : TappingSessionHandle) (s : SystemAudioTapper) (hw : HwState)
    (hv : h.isValid = true) (hd : dst.isValid = false) :
    h.release env s hw
      = (TappingSessionHandle.invalid, SystemAudioTapper.releaseSession env s hw)
  ∧ TappingSessionHandle.invalid.release env s hw
      = (TappingSessionHandle.invalid, s, hw)
  ∧ TappingSessionHandle.invalid.isValid = false
  ∧ h.moveFrom = (h, TappingSessionHandle.invalid)
  ∧ h.moveFrom.2.isValid = false
  ∧ h.moveFrom.2.release env s hw = (h.moveFrom.2, s, hw)
  ∧ TappingSessionHandle.moveAssign env dst h s hw
      = (h, TappingSessionHandle.invalid, s, hw) := by
  have hm : h.hasManager = true := hv
  have hdm : dst.hasManager = false := hd
  refine ⟨?_, ?_, rfl, ?_, ?_, ?_, ?_⟩
  · simp [TappingSessionHandle.release, hm]
  · simp [TappingSessionHandle.release, TappingSessionHandle.invalid]
  · simp [TappingSessionHandle.moveFrom]
  · simp [TappingSessionHandle.moveFrom, TappingSessionHandle.invalid,
      TappingSessionHandle.isValid]
  · simp [TappingSessionHandle.moveFrom, TappingSessionHandle.release,
      TappingSessionHandle.invalid]
  · simp [TappingSessionHandle.moveAssign, TappingSessionHandle.release, hdm]

/-- Witness for `handle_release_idempotent_move_safe`: a concrete valid
handle and a default-constructed (invalid) target. -/
theorem handle_release_idempotent_move_safe_witness :
    ((⟨101, 202, true⟩ : TappingSessionHandle).isValid = true
      ∧ TappingSessionHandle.invalid.isValid = false)
  ∧ ((⟨101, 202, true⟩ : TappingSessionHandle).release goodEnv
        ⟨1, 202, 101⟩ ⟨true, true, createdLog⟩
      = (TappingSessionHandle.invalid,
          SystemAudioTapper.releaseSession goodEnv ⟨1, 202, 101⟩
            ⟨true, true, createdLog⟩)
    ∧ TappingSessionHandle.invalid.release goodEnv ⟨1, 202, 101⟩
        ⟨true, true, createdLog⟩
      = (TappingSessionHandle.invalid, ⟨1, 202, 101⟩, ⟨true, true, createdLog⟩)
    ∧ TappingSessionHandle.invalid.isValid = false
    ∧ (⟨101, 202, true⟩ : TappingSessionHandle).moveFrom
      = (⟨101, 202, true⟩, TappingSessionHandle.invalid)
    ∧ (⟨101, 202, true⟩ : TappingSessionHandle).moveFrom.2.isValid = false
    ∧ (⟨101, 202, true⟩ : TappingSessionHandle).moveFrom.2.release goodEnv
        ⟨1, 202, 101⟩ ⟨true, true, createdLog⟩
      = ((⟨101, 202, true⟩ : TappingSessionHandle).moveFrom.2,
          ⟨1, 202, 101⟩, ⟨true, true, createdLog⟩)
    ∧ TappingSessionHandle.moveAssign goodEnv TappingSessionHandle.invalid
        ⟨101, 202, true⟩ ⟨1, 202, 101⟩ ⟨true, true, createdLog⟩
      = (⟨101, 202, true⟩, TappingSessionHandle.invalid,
          ⟨1, 202, 101⟩, ⟨true, true, createdLog⟩)) :=
  ⟨⟨rfl, rfl⟩,
    handle_release_idempotent_move_safe goodEnv ⟨101, 202, true⟩
      TappingSessionHandle.invalid ⟨1, 202, 101⟩ ⟨true, true, createdLog⟩
      rfl rfl⟩

/-- How the OS answers the IOProc registration calls: the identifier
returned by registration (none on failure), and whether the device has
vanished by the time of destruction. -/
structure RegEnv where
  regResult : Option Nat
  deviceVanished : Bool
deriving DecidableEq

/-- Member state of an `IOProcHandle` (`IOProcHandle.h:34-35`):
`AudioDeviceID ownerDeviceID_ = kAudioObjectUnknown` and
`AudioDeviceIOProcID ioProcID_ = nullptr` (modelled as an `Option`); the
stored callback closure does not matter to the claims. -/
structure IOProcHandle where
  ownerDeviceID : Nat
  ioProcID : Option Nat
deriving DecidableEq

/-- `IOProcHandle::isValid` (inline body at `IOProcHandle.h:23`):
`return ioProcID_ != nullptr;`. -/
def IOProcHandle.isValid (h : IOProcHandle) : Bool :=
  h.ioProcID.isSome

/-- Modelled from the spec: the `IOProcHandle(deviceID, callback)`
constructor implementation is not under the source tree; per spec section
4.3 it attempts to register the callback against the device and stores the
returned registration identifier, which stays null when registration
fails. -/
def IOProcHandle.create (env : RegEnv) (deviceID : Nat) : IOProcHandle :=
  ⟨deviceID, env.regResult⟩

/-- Modelled from the spec: the `IOProcHandle` destructor implementation is
not under the source tree; per spec section 4.3 it deregisters the callback
iff one is still registered, tolerating a vanished device (the outcome does
not depend on `deviceVanished`), and nulls the identifier.  The second
component counts the deregistration calls issued. -/
def IOProcHandle.destroy (_env : RegEnv) (h : IOProcHandle) :
    IOProcHandle × Nat :=
  match h.ioProcID with
  | none => (h, 0)
  | some _ => (⟨h.ownerDeviceID, none⟩, 1)

/-- Modelled from the spec: move construction/assignment
(`IOProcHandle.h:20-21`) transfers the registration identifier to the new
handle and nulls it out in the source. -/
def IOProcHandle.moveFrom (h : IOProcHandle) : IOProcHandle × IOProcHandle :=
  (⟨h.ownerDeviceID, h.ioProcID⟩, ⟨h.ownerDeviceID, none⟩)

/-- C7: the stored registration identifier is non-null exactly when
registration succeeded (and `isValid` reports exactly this); destruction
issues exactly one deregistration call when still registered and none
otherwise, in every environment including one where the device vanished;
after destruction the handle is no longer registered, so destroying it
again deregisters nothing; and a move transfers the identifier and nulls
the source, so destroying a moved-from handle deregisters nothing. -/
theorem ioproc_registration_invariant (env : RegEnv) (deviceID : Nat)
    (h : IOProcHandle) :
    (IOProcHandle.create env deviceID).isValid = env.regResult.isSome
  ∧ (IOProcHandle.create env deviceID).ioProcID = env.regResult
  ∧ (h.destroy env).2 = (if h.isValid = true then 1 else 0)
  ∧ (h.destroy env).1.isValid = false
  ∧ ((h.destroy env).1.destroy env).2 = 0
  ∧ h.moveFrom.1.ioProcID = h.ioProcID
  ∧ h.moveFrom.2.isValid = false
  ∧ (h.moveFrom.2.destroy env).2 = 0 := by
  rcases h with ⟨dev, id⟩
  cases id <;>
    simp [IOProcHandle.create, IOProcHandle.isValid, IOProcHandle.destroy,
      IOProcHandle.moveFrom]

/-- C++ access level of a class member. -/
inductive Access
  | publicAcc
  | privateAcc
deriving DecidableEq, BEq

/-- A constructor declaration of `TappingSessionHandle`: its signature, its
access level, and whether invoking it produces a handle owning a session
claim (as opposed to an empty handle or a transfer from an existing one). -/
structure CtorDecl where
  signature : String
  access : Access
  producesOwningHandle : Bool
deriving DecidableEq

/-- `TappingSessionHandle() = default` (`TappingSessionHandle.h:23`,
public): all members keep their default initialisers, so the resulting
handle is invalid and owns nothing. -/
def tshDefaultCtor : CtorDecl :=
  ⟨"TappingSessionHandle()", Access.publicAcc, false⟩

/-- The public move constructor (`TappingSessionHandle.h:24`): transfers an
existing claim, creates none. -/
def tshMoveCtor : CtorDecl :=
  ⟨"TappingSessionHandle(TappingSessionHandle &&)", Access.publicAcc, false⟩

/-- The constructor that produces a usable handle
(`TappingSessionHandle.h:42-44`): declared in the private section. -/
def tshMainCtor : CtorDecl :=
  ⟨"TappingSessionHandle(AudioObjectID, AudioDeviceID, SystemAudioTapper *)",
    Access.privateAcc, true⟩

/-- All constructors `TappingSessionHandle.h` declares. -/
def tshConstructors : List CtorDecl := [tshDefaultCtor, tshMoveCtor, tshMainCtor]

/-- The friend declarations of `TappingSessionHandle`
(`TappingSessionHandle.h:41`): exactly `friend class SystemAudioTapper`. -/
def tshFriendClasses : List String := ["SystemAudioTapper"]

/-- C++ accessibility of a constructor to code living in class `caller`:
public members are reachable from everywhere; private members only from
the class itself and its friends. -/
def canCallCtor (c : CtorDecl) (caller : String) : Bool :=
  match c.access with
  | Access.publicAcc => true
  | Access.privateAcc =>
      (caller == "TappingSessionHandle")
        || tshFriendClasses.any (fun f => caller == f)

/-- C8: the constructor producing a usable handle is private, the friend
list is exactly `SystemAudioTapper`, every constructor that produces an
owning handle is private, and the owning constructor is callable precisely
from `SystemAudioTapper` (by friendship) and from the handle class itself —
no other code can construct a valid session handle. -/
theorem handle_construction_restricted :
    tshMainCtor.access = Access.privateAcc
  ∧ tshFriendClasses = ["SystemAudioTapper"]
  ∧ tshConstructors.all
      (fun c => !c.producesOwningHandle || (c.access == Access.privateAcc)) = true
  ∧ ∀ caller : String,
      canCallCtor tshMainCtor caller
        = ((caller == "SystemAudioTapper") || (caller == "TappingSessionHandle")) := by
  refine ⟨rfl, rfl, by decide, ?_⟩
  intro caller
  simp [canCallCtor, tshMainCtor, tshFriendClasses]
  cases hq : (caller == "SystemAudioTapper") <;>
    cases hp : (caller == "TappingSessionHandle") <;> simp [hp, hq]

/-- The return type a C++ function declaration announces to its callers. -/
inductive RetType
  | voidReturn
  | booleanReturn
  | resultReturn
deriving DecidableEq, BEq

/-- Declared return type of `AudioDataHandler::saveToFile`
(`AudioDataHandler.h:21`): `void`. -/
def saveToFileDeclaredReturn : RetType := RetType.voidReturn

/-- Declared return type of `utils::saveBufferToFile`
(`AudioDeviceUtils.h:36-37`): `void`. -/
def saveBufferToFileDeclaredReturn : RetType := RetType.voidReturn

/-- Whether the destination file can be written. -/
structure SaveEnv where
  writeOk : Bool
deriving DecidableEq

/-- Modelled from the spec: the implementation of
`AudioDataHandler::saveToFile` (declared at `AudioDataHandler.h:21`) is not
under the source tree; per spec sections 4.4 and 7 the save fails when the
buffer is empty (nothing accumulated) or the write cannot complete, and the
accumulated buffer is left intact.  The Bool records whether persistence
succeeded; the C++ declaration returns void, so this outcome is not handed
to the caller. -/
def AudioDataHandler.saveToFile (env : SaveEnv) (h : AudioDataHandler) :
    AudioDataHandler × Bool :=
  if h.bufferIndex = 0 then (h, false)
  else (h, env.writeOk)

/-- C4 counterexample: both persistence functions are declared `void` at
their single call surface, so no boolean/result failure indication is
returned to the caller, contradicting the claim. -/
theorem saveToFile_void_counterexample :
    (saveToFileDeclaredReturn == RetType.booleanReturn) = false
  ∧ (saveToFileDeclaredReturn == RetType.resultReturn) = false
  ∧ saveToFileDeclaredReturn = RetType.voidReturn
  ∧ (saveBufferToFileDeclaredReturn == RetType.booleanReturn) = false
  ∧ (saveBufferToFileDeclaredReturn == RetType.resultReturn) = false
  ∧ saveBufferToFileDeclaredReturn = RetType.voidReturn := by
  refine ⟨rfl, rfl, rfl, rfl, rfl, rfl⟩

/-- C4 as amended: `saveToFile` is declared void, so persistence failure is
handled internally rather than returned; the save fails exactly when the
buffer is empty or the write cannot complete; the handler state — in
particular the accumulated sample buffer — is never modified by a save, so
after a failed write a retry on a non-empty buffer succeeds once the write
can complete. -/
theorem saveToFile_internal_failure_buffer_intact (env : SaveEnv)
    (h : AudioDataHandler) :
    saveToFileDeclaredReturn = RetType.voidReturn
  ∧ (h.saveToFile env).1 = h
  ∧ (h.saveToFile env).2 = (!(h.bufferIndex == 0) && env.writeOk)
  ∧ ((h.saveToFile ⟨false⟩).1.saveToFile ⟨true⟩).2 = !(h.bufferIndex == 0) := by
  rcases env with ⟨w⟩
  by_cases hz : h.bufferIndex = 0
  · cases w <;> simp [AudioDataHandler.saveToFile, hz,
      saveToFileDeclaredReturn]
  · cases w <;> simp [AudioDataHandler.saveToFile, hz,
      saveToFileDeclaredReturn]

/-- A C++ scalar type, as written in a declaration. -/
inductive CppScalarType
  | float32
  | float64
  | int16
  | int32
deriving DecidableEq

/-- Element type of the accumulator `std::vector<float> audioBuffer_`
(`AudioDataHandler.h:27`). -/
def audioBufferElementType : CppScalarType := CppScalarType.float32

/-- Element type of the `std::vector<float>` returned by
`utils::allocateBufferForFormat` (`AudioDeviceUtils.h:27-28`). -/
def allocateBufferElementType : CppScalarType := CppScalarType.float32

/-- An audio container file format. -/
inductive AudioContainerFormat
  | caf
  | wav
  | aiff
deriving DecidableEq

/-- Container written by `utils::saveBufferToFile` (`AudioDeviceUtils.h:30-37`,
"Saves a raw float audio buffer to a CAF file"). -/
def saveBufferToFileContainer : AudioContainerFormat := AudioContainerFormat.caf

/-- The sample type the pipeline stores for a negotiated format: the member
declaration of `audioBuffer_` fixes it independently of the format. -/
def storedSampleType (_format : AudioFormat) : CppScalarType :=
  audioBufferElementType

/-- C10: the accumulator buffer and the pre-sizing helper both use 32-bit
float samples, persistence writes the raw float buffer to a CAF container,
and the stored sample type does not depend on the negotiated format. -/
theorem float32_caf_pipeline :
    audioBufferElementType = CppScalarType.float32
  ∧ allocateBufferElementType = CppScalarType.float32
  ∧ saveBufferToFileContainer = AudioContainerFormat.caf
  ∧ ∀ format : AudioFormat, storedSampleType format = CppScalarType.float32 := by
  exact ⟨rfl, rfl, rfl, fun _ => rfl⟩
